import Mathlib

/-
  Verification of the orchestration logic of two scripts of this repository:

  * examples/swbd/training/train.py           — training driver (epoch loop,
    checkpointing, best-model tracking, early stopping, learning-rate decay,
    Gaussian weight-noise switching);
  * examples/csj/s5/exp/visualization/plot_nested_attention_weights.py —
    attention-weight visualization driver (model-type check, truncation of
    attention matrices, single-pass batch loop).

  Machine floats of the scripts are modelled by exact rationals; the opaque
  library objects (model, optimizer, dataset) are modelled by type
  parameters and explicit value passing.
-/

namespace NeuralSp

/-! ### Configuration mapping (`params`)

`params` is the hyperparameter mapping loaded from `config.yml`
(train.py lines 45-48, plot_nested_attention_weights.py line 57).
Values are modelled abstractly by rationals. -/

/-- The configuration mapping of hyperparameter names to values. -/
abbrev Params := String → Option ℚ

/-- A single dictionary store `p[k] = v`. -/
def setParam (p : Params) (k : String) (v : ℚ) : Params :=
  fun k2 => if k2 = k then some v else p k2

/-- train.py lines 50-54: after the config load, the script reads
`vocab_num.yml` and writes `params['num_classes'] = vocab_num[...][...]`. -/
def trainSetupParams (p : Params) (num_classes : ℚ) : Params :=
  setParam p "num_classes" num_classes

/-- plot_nested_attention_weights.py lines 75-76: after the config load, the
script writes `params['num_classes'] = test_data.num_classes` and
`params['num_classes_sub'] = test_data.num_classes_sub`. -/
def visSetupParams (p : Params) (num_classes num_classes_sub : ℚ) : Params :=
  setParam (setParam p "num_classes" num_classes) "num_classes_sub" num_classes_sub

/-! ### Best-model tracking and early stopping (train.py lines 144-157, 244-264)

`best_model` is a Python variable bound either to the very object `model`
(the initial binding `best_model = model`, line 147) or to a deep copy
`copy.deepcopy(model)` taken on improvement (line 247).  The deep copy holds
its own parameter state, independent of the live model. -/

/-- What the `best_model` variable refers to: the live `model` object itself
(initial binding, line 147) or an independent deep copy of the model state
taken by `copy.deepcopy(model)` (line 247). -/
inductive BestRef (M : Type) where
  | aliasLive : BestRef M
  | snapshot (state : M) : BestRef M
  deriving DecidableEq

/-- The loop state of train.py relevant to best-model tracking and early
stopping: `ler_dev_best`, `not_improved_epoch`, `best_model`
(lines 144-147). -/
structure EvalState (M : Type) where
  ler_dev_best : ℚ
  not_improved_epoch : Nat
  best_model : BestRef M
  deriving DecidableEq

/-- train.py lines 144-147: `ler_dev_best = 1`, `not_improved_epoch = 0`,
`best_model = model` (an alias, not a copy). -/
def initState (M : Type) : EvalState M :=
  { ler_dev_best := 1, not_improved_epoch := 0, best_model := BestRef.aliasLive }

/-- train.py lines 244-257: one epoch-boundary dev evaluation.  Given the
live model state `liveModel` and the dev metric `metric_dev_epoch`, update
`ler_dev_best` / `not_improved_epoch` / `best_model` (lines 244-250) and
report whether the early-stopping `break` fires
(`not_improved_epoch == params['not_improved_patient_epoch']`, line 256).
The returned `Bool` is true exactly when the loop breaks. -/
def evalBoundaryStep {M : Type} (patience : Nat) (s : EvalState M)
    (liveModel : M) (metric_dev_epoch : ℚ) : EvalState M × Bool :=
  let s' : EvalState M :=
    if metric_dev_epoch < s.ler_dev_best then
      { ler_dev_best := metric_dev_epoch, not_improved_epoch := 0,
        best_model := BestRef.snapshot liveModel }
    else
      { s with not_improved_epoch := s.not_improved_epoch + 1 }
  (s', decide (s'.not_improved_epoch = patience))

/-- The sequence of epoch-boundary dev evaluations of train.py: each list
element is the live model state and the dev metric at one epoch boundary;
the loop stops after a step whose early-stopping `break` fires. -/
def runEvals {M : Type} (patience : Nat) :
    List (M × ℚ) → EvalState M → EvalState M
  | [], s => s
  | (m, v) :: rest, s =>
    let r := evalBoundaryStep patience s m v
    if r.2 then r.1 else runEvals patience rest r.1

/-- train.py lines 275-326: the final test-set evaluation runs on
`best_model`; when `best_model` is still the initial alias this is the live
model object itself, otherwise the deep-copied state. -/
def finalEvalModel {M : Type} (s : EvalState M) (liveModel : M) : M :=
  match s.best_model with
  | BestRef.aliasLive => liveModel
  | BestRef.snapshot m => m

/-! ### Gaussian weight-noise switching (train.py lines 155-157) -/

/-- train.py lines 155-157: each training step, after `train_step`, the flag
`model.weight_noise_injection` is set to `True` when
`weight_noise_std > 0 and learning_rate < params['learning_rate']`;
it is never written otherwise. -/
def noiseCheck (weight_noise_std learning_rate_init learning_rate : ℚ)
    (weight_noise_injection : Bool) : Bool :=
  if 0 < weight_noise_std ∧ learning_rate < learning_rate_init then true
  else weight_noise_injection

/-- The training-step loop restricted to the weight-noise flag: fold
`noiseCheck` over the learning rate in effect at each successive step. -/
def noiseRun (weight_noise_std learning_rate_init : ℚ)
    (weight_noise_injection : Bool) : List ℚ → Bool
  | [] => weight_noise_injection
  | lr :: rest =>
      noiseRun weight_noise_std learning_rate_init
        (noiseCheck weight_noise_std learning_rate_init lr weight_noise_injection)
        rest

/-! ### Learning-rate controller (utils/training/learning_rate_controller.py) -/

/-- The state of the patience-based learning-rate controller constructed at
train.py lines 122-128. -/
structure Controller where
  learning_rate_init : ℚ
  decay_start_epoch : Nat
  decay_rate : ℚ
  decay_patient_epoch : Nat
  lower_better : Bool
  best_value : ℚ
  not_improved_epoch : Nat
  deriving DecidableEq

/-- Modelled from the spec: `Controller.decay_lr` lives in
utils/training/learning_rate_controller.py, which is imported by train.py
(line 25) but whose source is not included here.  Per the spec (§4.2, §8)
the controller, "given the current epoch and a monitored metric value,
decays the learning rate by a fixed factor after a configured number of
epochs without improvement, only once a configured decay-start epoch has
passed"; it "must decay by exactly decay_rate after decay_patient_epoch
consecutive non-improving evaluations, then reset its patience counter".
Improvement means the monitored value is strictly better than the best value
seen so far (strictly smaller when `lower_better`).  Returns the updated
controller state and the new learning rate (train.py lines 259-264 rebind
`learning_rate` to this return value). -/
def Controller.decay_lr (c : Controller) (learning_rate : ℚ) (epoch : Nat)
    (value : ℚ) : Controller × ℚ :=
  let v := if c.lower_better then value else -value
  if epoch < c.decay_start_epoch then
    (if v < c.best_value then { c with best_value := v } else c, learning_rate)
  else
    if v < c.best_value then
      ({ c with best_value := v, not_improved_epoch := 0 }, learning_rate)
    else
      let c' := { c with not_improved_epoch := c.not_improved_epoch + 1 }
      if c.decay_patient_epoch ≤ c'.not_improved_epoch then
        ({ c' with not_improved_epoch := 0 }, learning_rate * c.decay_rate)
      else
        (c', learning_rate)

/-! ### The epoch-boundary block of the training loop (train.py lines 199-270)

The block is modelled by the ordered list of the externally visible actions
it performs; `epochBoundaryTrace` mirrors the control flow of lines 199-270
directly. -/

/-- The externally visible actions of the epoch-boundary block:
`plot_loss` (line 205), `model.save_checkpoint` (line 209), the full dev-set
evaluation (lines 216-242, CER or WER), the best-model update (lines
244-248), the early-stopping `break` (line 256), the `lr_controller.decay_lr`
call (line 260), and the return to training mode `model.train()`
(line 267). -/
inductive EpochAction where
  | plotLoss
  | saveCheckpoint
  | evalDev
  | updateBest
  | earlyStop
  | decayLR
  | backToTrain
  deriving DecidableEq

/-- train.py lines 199-270: the ordered actions the epoch-boundary block
performs, given the current epoch, the loop state and the dev metric this
boundary would observe.  Faithful to the source order: plot, checkpoint,
then — only when `train_data.epoch >= params['eval_start_epoch']` — the dev
evaluation, the best-model update on strict improvement, and then the
early-stopping check (line 256) BEFORE the decay call (line 260): when the
`break` fires neither `decay_lr` nor `model.train()` runs. -/
def epochBoundaryTrace {M : Type} (eval_start_epoch patience : Nat)
    (epoch : Nat) (s : EvalState M) (metric_dev_epoch : ℚ) :
    List EpochAction :=
  [EpochAction.plotLoss, EpochAction.saveCheckpoint] ++
  (if eval_start_epoch ≤ epoch then
    [EpochAction.evalDev] ++
    (if metric_dev_epoch < s.ler_dev_best then [EpochAction.updateBest] else []) ++
    (let counter' := if metric_dev_epoch < s.ler_dev_best then 0
                     else s.not_improved_epoch + 1
     if counter' = patience then [EpochAction.earlyStop]
     else [EpochAction.decayLR, EpochAction.backToTrain])
  else [])

/-! ### Visualization script (plot_nested_attention_weights.py) -/

/-- Numpy-style two-dimensional slice `m[:r, :c]` used at lines 143, 144 and
155 of plot_nested_attention_weights.py: keep the first `r` rows and the
first `c` columns (clamping, as numpy slices do, when the matrix is
smaller). -/
def sliceMat (m : List (List ℚ)) (r c : Nat) : List (List ℚ) :=
  (m.take r).map (fun row => row.take c)

/-- The arguments the per-utterance body (lines 129-161) passes to the two
rendering calls: the truncated word-to-acoustic matrix `aw[b]`, the
truncated character-to-acoustic matrix `aw_sub[b]`, the truncated
word-to-character matrix `aw_dec_out_sub[b]`, and the decoded token lists
used as axis labels. -/
structure UttRender where
  aw_plot : List (List ℚ)
  aw_sub_plot : List (List ℚ)
  aw_dec_plot : List (List ℚ)
  word_list : List String
  char_list : List String
  deriving DecidableEq

/-- plot_nested_attention_weights.py lines 129-161, one utterance `b`:
`word_list = idx2word(best_hyps[b])`, `char_list = idx2char(best_hyps_sub[b])`,
then the rendering calls receive
`aw[b, :len(word_list), :x_lens[b]]`,
`aw_sub[b, :len(char_list), :x_lens[b]]` and
`aw_dec_out_sub[b, :len(word_list), :len(char_list)]`. -/
def renderUtt (idx2word idx2char : List Nat → List String)
    (best_hyp best_hyp_sub : List Nat)
    (aw_b aw_sub_b aw_dec_b : List (List ℚ)) (x_len : Nat) : UttRender :=
  let word_list := idx2word best_hyp
  let char_list := idx2char best_hyp_sub
  { aw_plot := sliceMat aw_b word_list.length x_len
    aw_sub_plot := sliceMat aw_sub_b char_list.length x_len
    aw_dec_plot := sliceMat aw_dec_b word_list.length char_list.length
    word_list := word_list
    char_list := char_list }

/-- plot_nested_attention_weights.py lines 119-176: the batch loop.  For each
`(batch, is_new_epoch)` pair the dataset yields: if `model.model_type` is
not `'nested_attention'` the body raises `ValueError` (line 127) before any
rendering; otherwise the batch is rendered (`step`), and after the body the
loop breaks when `is_new_epoch` is true (lines 175-176).  Returns the list
of rendered batches, or the raised error. -/
def plotRun {B G : Type} (model_type : String) (step : B → G) :
    List (B × Bool) → Except Unit (List G)
  | [] => Except.ok []
  | (batch, is_new_epoch) :: rest =>
    if model_type = "nested_attention" then
      let r := step batch
      if is_new_epoch then Except.ok [r]
      else
        match plotRun model_type step rest with
        | Except.ok rs => Except.ok (r :: rs)
        | Except.error e => Except.error e
    else Except.error ()

/-! ## Theorems -/

/-- C1: at every epoch-boundary dev evaluation, the early-stopping `break`
fires if and only if the (updated) count of consecutive non-improving dev
evaluations equals `params['not_improved_patient_epoch']`; the counter is
reset to 0 on every strict improvement and incremented by 1 otherwise. -/
theorem earlyStopping_break_iff_patience {M : Type} (patience : Nat)
    (s : EvalState M) (liveModel : M) (v : ℚ) :
    ((evalBoundaryStep patience s liveModel v).2 = true ↔
      (evalBoundaryStep patience s liveModel v).1.not_improved_epoch = patience)
    ∧ (evalBoundaryStep patience s liveModel v).1.not_improved_epoch =
        (if v < s.ler_dev_best then 0 else s.not_improved_epoch + 1) := by
  refine ⟨?_, ?_⟩ <;> simp only [evalBoundaryStep] <;> split <;> simp

/-- C5: at every epoch-boundary dev evaluation, `best_model` is rebound to a
deep copy (`snapshot`) of the live model exactly when the dev metric strictly
improves on the best value seen so far, and is left unchanged otherwise; the
recorded best metric is monotonically non-increasing; and a snapshot taken on
improvement is independent of the live model: the final evaluation then uses
the copied state regardless of what the live model later becomes. -/
theorem best_model_snapshot_on_improvement {M : Type} (patience : Nat)
    (s : EvalState M) (liveModel : M) (v : ℚ) :
    ((evalBoundaryStep patience s liveModel v).1.best_model =
       if v < s.ler_dev_best then BestRef.snapshot liveModel else s.best_model)
    ∧ (evalBoundaryStep patience s liveModel v).1.ler_dev_best ≤ s.ler_dev_best
    ∧ (v < s.ler_dev_best → ∀ liveLater : M,
        finalEvalModel (evalBoundaryStep patience s liveModel v).1 liveLater
          = liveModel) := by
  refine ⟨?_, ?_, ?_⟩
  · simp only [evalBoundaryStep]; split <;> simp
  · simp only [evalBoundaryStep]
    split
    · exact le_of_lt (by assumption)
    · exact le_refl _
  · intro himp liveLater
    simp [evalBoundaryStep, if_pos himp, finalEvalModel]

/-- Witness for C5's theorem at a concrete improving evaluation. -/
theorem best_model_snapshot_on_improvement_witness :
    (0:ℚ) < (initState ℕ).ler_dev_best ∧
    finalEvalModel (evalBoundaryStep 5 (initState ℕ) 3 0).1 99 = 3 :=
  ⟨by decide,
   (best_model_snapshot_on_improvement 5 (initState ℕ) 3 0).2.2 (by decide) 99⟩

/-- Invariant for C8: as long as no dev metric is strictly below the initial
best value 1, `ler_dev_best` stays 1 and `best_model` stays the initial
alias of the live model. -/
theorem runEvals_alias_of_no_improvement {M : Type} (patience : Nat)
    (liveSeq : List (M × ℚ)) (s : EvalState M)
    (hbest : s.ler_dev_best = 1) (halias : s.best_model = BestRef.aliasLive)
    (h : ∀ p ∈ liveSeq, (1:ℚ) ≤ p.2) :
    (runEvals patience liveSeq s).ler_dev_best = 1 ∧
    (runEvals patience liveSeq s).best_model = BestRef.aliasLive := by
  induction liveSeq generalizing s with
  | nil => exact ⟨hbest, halias⟩
  | cons p rest ih =>
    obtain ⟨m, v⟩ := p
    have hv : (1:ℚ) ≤ v := h _ (List.mem_cons_self _ _)
    have hnlt : ¬ v < s.ler_dev_best := by rw [hbest]; exact not_lt.mpr hv
    simp only [runEvals, evalBoundaryStep, if_neg hnlt]
    split
    · exact ⟨hbest, halias⟩
    · exact ih _ hbest halias (fun q hq => h q (List.mem_cons_of_mem _ hq))

/-- C8: if no epoch-boundary dev evaluation yields a metric strictly below
the initial best value 1, `best_model` is never rebound: it remains the very
alias of the live training model set at line 147, and the final test-set
evaluation (lines 275-326) therefore runs on the live model's last state. -/
theorem best_model_alias_when_no_improvement {M : Type} (patience : Nat)
    (liveSeq : List (M × ℚ)) (liveFinal : M)
    (h : ∀ p ∈ liveSeq, (1:ℚ) ≤ p.2) :
    (runEvals patience liveSeq (initState M)).best_model = BestRef.aliasLive ∧
    finalEvalModel (runEvals patience liveSeq (initState M)) liveFinal
      = liveFinal := by
  have halias :=
    (runEvals_alias_of_no_improvement patience liveSeq (initState M) rfl rfl h).2
  refine ⟨halias, ?_⟩
  unfold finalEvalModel
  rw [halias]

/-- Witness for C8's theorem on a concrete run with no improving metric. -/
theorem best_model_alias_when_no_improvement_witness :
    (∀ p ∈ [((7:ℕ), (1:ℚ)), (7, 2)], (1:ℚ) ≤ p.2) ∧
    finalEvalModel (runEvals 5 [((7:ℕ), (1:ℚ)), (7, 2)] (initState ℕ)) 42
      = 42 :=
  ⟨by decide,
   (best_model_alias_when_no_improvement 5 [((7:ℕ), (1:ℚ)), (7, 2)] 42
     (by decide)).2⟩

/-- Once true, `noiseCheck` keeps the weight-noise flag true. -/
theorem noiseCheck_true (std init lr : ℚ) :
    noiseCheck std init lr true = true := by
  unfold noiseCheck; split <;> rfl

/-- Once true, the weight-noise flag stays true for the rest of training. -/
theorem noiseRun_true (std init : ℚ) (lrs : List ℚ) :
    noiseRun std init true lrs = true := by
  induction lrs with
  | nil => rfl
  | cons lr rest ih => simp [noiseRun, noiseCheck_true, ih]

/-- `noiseRun` over concatenated step sequences composes. -/
theorem noiseRun_append (std init : ℚ) (w : Bool) (a b : List ℚ) :
    noiseRun std init w (a ++ b) =
      noiseRun std init (noiseRun std init w a) b := by
  induction a generalizing w with
  | nil => rfl
  | cons x rest ih => simp [noiseRun, ih]

/-- While the learning rate has not fallen below its initial value, the
weight-noise flag stays false. -/
theorem noiseRun_false_of_no_drop (std init : ℚ) (pre : List ℚ)
    (hpre : ∀ x ∈ pre, ¬ x < init) :
    noiseRun std init false pre = false := by
  induction pre with
  | nil => rfl
  | cons x rest ih =>
    have hx : ¬ x < init := hpre _ (List.mem_cons_self _ _)
    have hc : noiseCheck std init x false = false := by
      unfold noiseCheck
      rw [if_neg]
      exact fun hand => hx hand.2
    rw [noiseRun, hc]
    exact ih (fun y hy => hpre y (List.mem_cons_of_mem _ hy))

/-- C10: when `weight_noise_std > 0`, the weight-noise flag is still off
after every step at which the learning rate has not yet fallen below its
initial value, it is switched on by the first step at which the learning
rate is strictly below the initial value, and once on it is never switched
off. -/
theorem weight_noise_switch_on (std init lr : ℚ) (pre post : List ℚ)
    (hstd : 0 < std) (hpre : ∀ x ∈ pre, ¬ x < init) (hlr : lr < init) :
    noiseRun std init false pre = false ∧
    noiseRun std init false (pre ++ lr :: post) = true ∧
    (∀ lrs : List ℚ, noiseRun std init true lrs = true) := by
  have hfalse := noiseRun_false_of_no_drop std init pre hpre
  refine ⟨hfalse, ?_, noiseRun_true std init⟩
  rw [noiseRun_append, hfalse, noiseRun]
  have hc : noiseCheck std init lr false = true := by
    unfold noiseCheck
    exact if_pos ⟨hstd, hlr⟩
  rw [hc]
  exact noiseRun_true std init post

/-- Witness for C10's theorem at a concrete run: the rate stays at its
initial value 1 for one step, drops to 0, and the flag switches on. -/
theorem weight_noise_switch_on_witness :
    (0:ℚ) < 1 ∧ noiseRun 1 1 false ([2] ++ 0 :: [3]) = true :=
  ⟨by decide,
   (weight_noise_switch_on 1 1 0 [2] [3] (by decide) (by decide)
     (by decide)).2.1⟩

/-- C2 counterexample: a concrete epoch boundary (patience 1, first dev
evaluation not improving) on which the early-stopping `break` fires and the
learning-rate decay step is NOT invoked — refuting the claim that the decay
step is invoked before the loop can terminate via the early-stop branch. -/
theorem epochBoundary_decay_skipped_cx :
    EpochAction.earlyStop ∈
      epochBoundaryTrace (M := Unit) 1 1 1 (initState Unit) 2 ∧
    EpochAction.decayLR ∉
      epochBoundaryTrace (M := Unit) 1 1 1 (initState Unit) 2 := by
  decide

/-- C2 (amended): at an epoch boundary at or past the configured start
epoch, the block performs the loss plot, the checkpoint save and the dev
evaluation first, in this order; the best-model update occurs exactly on
strict improvement; the early-stop `break` occurs exactly when the updated
non-improvement counter equals the patience; the decay step is invoked
exactly when it does not; and never both. -/
theorem epochBoundary_earlyStop_before_decay {M : Type}
    (eval_start_epoch patience epoch : Nat) (s : EvalState M) (v : ℚ)
    (h : eval_start_epoch ≤ epoch) :
    (epochBoundaryTrace eval_start_epoch patience epoch s v).take 3 =
      [EpochAction.plotLoss, EpochAction.saveCheckpoint, EpochAction.evalDev] ∧
    (EpochAction.updateBest ∈
        epochBoundaryTrace eval_start_epoch patience epoch s v ↔
      v < s.ler_dev_best) ∧
    (EpochAction.earlyStop ∈
        epochBoundaryTrace eval_start_epoch patience epoch s v ↔
      (if v < s.ler_dev_best then 0 else s.not_improved_epoch + 1) = patience) ∧
    (EpochAction.decayLR ∈
        epochBoundaryTrace eval_start_epoch patience epoch s v ↔
      (if v < s.ler_dev_best then 0 else s.not_improved_epoch + 1) ≠ patience) ∧
    ¬ (EpochAction.earlyStop ∈
         epochBoundaryTrace eval_start_epoch patience epoch s v ∧
       EpochAction.decayLR ∈
         epochBoundaryTrace eval_start_epoch patience epoch s v) := by
  simp only [epochBoundaryTrace, if_pos h]
  split <;> split <;> simp_all

/-- Witness for C2's amended theorem at a concrete epoch boundary. -/
theorem epochBoundary_earlyStop_before_decay_witness :
    (1:Nat) ≤ 2 ∧
    (EpochAction.decayLR ∈
        epochBoundaryTrace (M := Unit) 1 5 2 (initState Unit) 2 ↔
      (if (2:ℚ) < (initState Unit).ler_dev_best then 0
       else (initState Unit).not_improved_epoch + 1) ≠ 5) :=
  ⟨by decide,
   (epochBoundary_earlyStop_before_decay 1 5 2 (initState Unit) 2
     (by decide)).2.2.2.1⟩

/-- C4 counterexample: the loaded params mapping is NOT read-only after the
load — train.py line 53 writes `params['num_classes']` after the config load
completes, so the mapping after setup differs from the loaded one. -/
theorem params_readonly_cx :
    trainSetupParams (fun _ => none) 5 ≠ (fun _ => (none : Option ℚ)) := by
  intro hcontra
  have h2 := congrFun hcontra "num_classes"
  simp [trainSetupParams, setParam] at h2

/-- C4 (amended): right after the config load each script extends `params`
once — train.py writes the key `num_classes`, the visualization script
writes `num_classes` and `num_classes_sub` — and every other key keeps the
loaded value; after this setup neither script modifies the mapping. -/
theorem params_frame_after_setup (p : Params) (v w : ℚ) (k : String)
    (h1 : k ≠ "num_classes") (h2 : k ≠ "num_classes_sub") :
    trainSetupParams p v k = p k ∧ visSetupParams p v w k = p k := by
  constructor
  · simp [trainSetupParams, setParam, h1]
  · simp [visSetupParams, setParam, h1, h2]

/-- Witness for C4's amended theorem at the concrete key `batch_size`. -/
theorem params_frame_after_setup_witness :
    ("batch_size" ≠ "num_classes") ∧
    trainSetupParams (fun _ => some 1) 5 "batch_size"
      = (fun _ : String => (some (1:ℚ))) "batch_size" :=
  ⟨by decide,
   (params_frame_after_setup (fun _ => some 1) 5 7 "batch_size" (by decide)
     (by decide)).1⟩

/-- C6: the learning-rate controller never decays the learning rate at an
epoch before `decay_start_epoch`; at or past it, on the evaluation at which
the count of consecutive non-improving evaluations reaches
`decay_patient_epoch`, the returned learning rate is exactly the input rate
multiplied by `decay_rate` and the patience counter is reset to 0; while
the count is still below the patience no decay occurs. -/
theorem controller_decay_policy (c : Controller) (lr : ℚ) (epoch : Nat)
    (v : ℚ) :
    (epoch < c.decay_start_epoch → (c.decay_lr lr epoch v).2 = lr) ∧
    (c.lower_better = true → c.decay_start_epoch ≤ epoch →
      ¬ v < c.best_value →
      ((c.not_improved_epoch + 1 = c.decay_patient_epoch →
         (c.decay_lr lr epoch v).2 = lr * c.decay_rate ∧
         (c.decay_lr lr epoch v).1.not_improved_epoch = 0) ∧
       (c.not_improved_epoch + 1 < c.decay_patient_epoch →
         (c.decay_lr lr epoch v).2 = lr ∧
         (c.decay_lr lr epoch v).1.not_improved_epoch =
           c.not_improved_epoch + 1))) := by
  constructor
  · intro hlt
    simp only [Controller.decay_lr, if_pos hlt]
  · intro hlb hse hni
    have hnlt : ¬ epoch < c.decay_start_epoch := not_lt.mpr hse
    constructor
    · intro hcount
      have htrig : c.decay_patient_epoch ≤ c.not_improved_epoch + 1 :=
        le_of_eq hcount.symm
      simp [Controller.decay_lr, hlb, if_neg hnlt, if_neg hni, if_pos htrig]
    · intro hcount
      have hntrig : ¬ c.decay_patient_epoch ≤ c.not_improved_epoch + 1 :=
        not_le.mpr hcount
      simp [Controller.decay_lr, hlb, if_neg hnlt, if_neg hni, if_neg hntrig]

/-- Witness for C6's theorem: a controller whose patience counter stands at
2 with patience 3, past the decay start epoch, receiving a non-improving
value: the rate is multiplied by `decay_rate` and the counter resets. -/
theorem controller_decay_policy_witness :
    ((⟨1, 1, 1/2, 3, true, 1, 2⟩ : Controller).decay_lr 1 5 2).2
        = 1 * (⟨1, 1, 1/2, 3, true, 1, 2⟩ : Controller).decay_rate ∧
    ((⟨1, 1, 1/2, 3, true, 1, 2⟩ : Controller).decay_lr 1 5 2).1.not_improved_epoch
        = 0 :=
  ((controller_decay_policy ⟨1, 1, 1/2, 3, true, 1, 2⟩ 1 5 2).2 rfl
    (by decide) (by decide)).1 (by decide)

/-- Shape of a numpy-style slice when the source matrix is at least as
large as the requested window: exactly `r` rows, each of length `c`. -/
theorem sliceMat_shape (m : List (List ℚ)) (r c : Nat)
    (hr : r ≤ m.length) (hc : ∀ row ∈ m, c ≤ row.length) :
    (sliceMat m r c).length = r ∧ ∀ row ∈ sliceMat m r c, row.length = c := by
  constructor
  · simp [sliceMat, List.length_take, Nat.min_eq_left hr]
  · intro row hrow
    simp only [sliceMat, List.mem_map] at hrow
    obtain ⟨row0, h0, rfl⟩ := hrow
    have hmem : row0 ∈ m := List.take_subset r m h0
    simp [List.length_take, Nat.min_eq_left (hc row0 hmem)]

/-- C3: for every utterance `b`, each attention-weight matrix passed to
rendering is the source matrix truncated to (decoded length, input length):
given the source matrices are at least that large (they are sized by the
decoding bounds), `aw[b]` is passed with exactly `len(word_list)` rows of
length `x_lens[b]`, `aw_sub[b]` with exactly `len(char_list)` rows of
length `x_lens[b]`, and `aw_dec_out_sub[b]` with exactly `len(word_list)`
rows of length `len(char_list)` — so rendering reads no out-of-range
index. -/
theorem attention_weights_truncated_shape
    (idx2word idx2char : List Nat → List String)
    (best_hyp best_hyp_sub : List Nat)
    (aw_b aw_sub_b aw_dec_b : List (List ℚ)) (x_len : Nat)
    (h1 : (idx2word best_hyp).length ≤ aw_b.length)
    (h2 : ∀ row ∈ aw_b, x_len ≤ row.length)
    (h3 : (idx2char best_hyp_sub).length ≤ aw_sub_b.length)
    (h4 : ∀ row ∈ aw_sub_b, x_len ≤ row.length)
    (h5 : (idx2word best_hyp).length ≤ aw_dec_b.length)
    (h6 : ∀ row ∈ aw_dec_b, (idx2char best_hyp_sub).length ≤ row.length) :
    ((renderUtt idx2word idx2char best_hyp best_hyp_sub aw_b aw_sub_b aw_dec_b
        x_len).aw_plot.length = (idx2word best_hyp).length ∧
      ∀ row ∈ (renderUtt idx2word idx2char best_hyp best_hyp_sub aw_b aw_sub_b
        aw_dec_b x_len).aw_plot, row.length = x_len) ∧
    ((renderUtt idx2word idx2char best_hyp best_hyp_sub aw_b aw_sub_b aw_dec_b
        x_len).aw_sub_plot.length = (idx2char best_hyp_sub).length ∧
      ∀ row ∈ (renderUtt idx2word idx2char best_hyp best_hyp_sub aw_b aw_sub_b
        aw_dec_b x_len).aw_sub_plot, row.length = x_len) ∧
    ((renderUtt idx2word idx2char best_hyp best_hyp_sub aw_b aw_sub_b aw_dec_b
        x_len).aw_dec_plot.length = (idx2word best_hyp).length ∧
      ∀ row ∈ (renderUtt idx2word idx2char best_hyp best_hyp_sub aw_b aw_sub_b
        aw_dec_b x_len).aw_dec_plot,
        row.length = (idx2char best_hyp_sub).length) :=
  ⟨sliceMat_shape aw_b _ _ h1 h2, sliceMat_shape aw_sub_b _ _ h3 h4,
   sliceMat_shape aw_dec_b _ _ h5 h6⟩

/-- Witness for C3's theorem on concrete decoded hypotheses and matrices. -/
theorem attention_weights_truncated_shape_witness :
    ((fun l : List Nat => l.map fun _ => "w") [0, 1]).length ≤
      ([[0, 0, 0], [0, 0, 0], [0, 0, 0]] : List (List ℚ)).length ∧
    (renderUtt (fun l => l.map fun _ => "w") (fun l => l.map fun _ => "c")
        [0, 1] [0] [[0, 0, 0], [0, 0, 0], [0, 0, 0]] [[0, 0], [0, 0]]
        [[0, 0], [0, 0]] 2).aw_plot.length
      = ((fun l : List Nat => l.map fun _ => "w") [0, 1]).length :=
  ⟨by decide,
   (attention_weights_truncated_shape (fun l => l.map fun _ => "w")
     (fun l => l.map fun _ => "c") [0, 1] [0]
     [[0, 0, 0], [0, 0, 0], [0, 0, 0]] [[0, 0], [0, 0]] [[0, 0], [0, 0]] 2
     (by decide) (by decide) (by decide) (by decide) (by decide)
     (by decide)).1.1⟩

/-- On a `nested_attention` model the batch loop never raises: it always
returns a rendered list. -/
theorem plotRun_ok_of_nested {B G : Type} (step : B → G)
    (stream : List (B × Bool)) :
    ∃ rs, plotRun "nested_attention" step stream = Except.ok rs := by
  induction stream with
  | nil => exact ⟨[], rfl⟩
  | cons p rest ih =>
    obtain ⟨b, flag⟩ := p
    obtain ⟨rs, hrs⟩ := ih
    by_cases hf : flag = true
    · subst hf
      exact ⟨[step b], by simp [plotRun]⟩
    · refine ⟨step b :: rs, ?_⟩
      simp [plotRun, hf, hrs]

/-- C7: on a nonempty dataset the visualization loop raises the generic
`ValueError` — rendering nothing — exactly when the loaded model's
`model_type` is not `'nested_attention'`. -/
theorem plot_raises_on_wrong_model_type {B G : Type} (model_type : String)
    (step : B → G) (batch : B) (is_new_epoch : Bool)
    (rest : List (B × Bool)) :
    plotRun model_type step ((batch, is_new_epoch) :: rest)
        = Except.error () ↔
      model_type ≠ "nested_attention" := by
  constructor
  · intro herr hmt
    subst hmt
    obtain ⟨rs, hrs⟩ :=
      plotRun_ok_of_nested step ((batch, is_new_epoch) :: rest)
    rw [hrs] at herr
    exact Except.noConfusion herr
  · intro hmt
    simp [plotRun, hmt]

/-- C9: the visualization loop renders exactly one pass over the dataset:
when the epoch-boundary flag first turns true at some batch, the loop
renders every batch up to and including that one, once each and in order,
and touches nothing the dataset would yield afterwards. -/
theorem plot_single_pass {B G : Type} (step : B → G)
    (pre : List (B × Bool)) (lastBatch : B) (rest : List (B × Bool))
    (hpre : ∀ p ∈ pre, p.2 = false) :
    plotRun "nested_attention" step (pre ++ (lastBatch, true) :: rest) =
      Except.ok ((pre.map Prod.fst).map step ++ [step lastBatch]) := by
  induction pre with
  | nil => simp [plotRun]
  | cons p pre' ih =>
    obtain ⟨b, flag⟩ := p
    have hf : flag = false := hpre _ (List.mem_cons_self _ _)
    subst hf
    have ih' := ih (fun q hq => hpre q (List.mem_cons_of_mem _ hq))
    simp [plotRun, ih']

/-- Witness for C9's theorem on a concrete three-batch epoch followed by a
would-be repeat batch that is never rendered. -/
theorem plot_single_pass_witness :
    (∀ p ∈ [((1:ℕ), false), (2, false)], p.2 = false) ∧
    plotRun "nested_attention" (fun b : ℕ => b + 10)
        ([((1:ℕ), false), (2, false)] ++ (3, true) :: [(1, false)]) =
      Except.ok
        (([((1:ℕ), false), (2, false)].map Prod.fst).map (fun b => b + 10) ++
          [(fun b : ℕ => b + 10) 3]) :=
  ⟨by decide,
   plot_single_pass (fun b : ℕ => b + 10) [((1:ℕ), false), (2, false)] 3
     [(1, false)] (by decide)⟩

end NeuralSp
